import Mathlib

/-!
Verification of the change-detection and classification core of the
internship notifier (src/notifier.py), as a shallow embedding in Lean.

Python values appearing in the JSON payload and in the persisted state
file are embedded as `JVal`; a role record (a Python dict) is a key/value
list.  Python text operations used by the code (`str`, `strip`, `lower`,
substring `in`, truthiness) are modelled explicitly.  The network fetch
and the state file are modelled by explicit outcome types; `main` becomes
a pure function from those inputs to the list of sent messages, the
resulting state file, and an optional error (a raised exception).
-/

namespace Notifier

/-- Embedded Python/JSON value. -/
inductive JVal where
  | null
  | bool (b : Bool)
  | num (n : Int)
  | str (s : String)
  | list (xs : List JVal)
  | obj (kvs : List (String × JVal))

/-- A role record: a Python dict as produced by json parsing (keys unique). -/
abbrev Role := List (String × JVal)

/-- Python truthiness of an embedded value (bool(x)). -/
def pyTruthy : JVal → Bool
  | .null => false
  | .bool b => b
  | .num n => n != 0
  | .str s => s != ""
  | .list xs => !xs.isEmpty
  | .obj kvs => !kvs.isEmpty

/-- First binding of a key in a dict, if any. -/
def lookupKey (role : Role) (k : String) : Option JVal :=
  (role.find? (fun kv => kv.1 == k)).map (fun kv => kv.2)

/-- Python dict.get(k): the stored value, or None when the key is absent. -/
def pyGet (role : Role) (k : String) : JVal :=
  (lookupKey role k).getD JVal.null

/-- Python dict.get(k, d): the stored value, or the default d when absent. -/
def pyGetD (role : Role) (k : String) (d : JVal) : JVal :=
  (lookupKey role k).getD d

/-- A single-quote character, used by the Python repr of strings. -/
def squote : String := String.singleton (Char.ofNat 39)

mutual

/-- Python repr of an embedded value (escape sequences inside strings are
not modelled; no analysed input contains a quote character). -/
def pyRepr : JVal → String
  | JVal.null => "None"
  | JVal.bool true => "True"
  | JVal.bool false => "False"
  | JVal.num n => toString n
  | JVal.str s => squote ++ s ++ squote
  | JVal.list xs => "[" ++ String.intercalate ", " (pyReprList xs) ++ "]"
  | JVal.obj kvs => "\x7b" ++ String.intercalate ", " (pyReprObj kvs) ++ "\x7d"

/-- Reprs of the elements of a list value. -/
def pyReprList : List JVal → List String
  | [] => []
  | v :: vs => pyRepr v :: pyReprList vs

/-- Reprs of the bindings of an object value. -/
def pyReprObj : List (String × JVal) → List String
  | [] => []
  | kv :: kvs => (squote ++ kv.1 ++ squote ++ ": " ++ pyRepr kv.2) :: pyReprObj kvs

end

/-- Python str(x): a string is returned as is, other values via repr. -/
def pyStr : JVal → String
  | JVal.str s => s
  | v => pyRepr v

/-- Python str.isspace of the whitespace characters stripped by strip(). -/
def pyIsSpace (c : Char) : Bool :=
  c == ' ' || c == Char.ofNat 9 || c == Char.ofNat 10 || c == Char.ofNat 13 ||
    c == Char.ofNat 11 || c == Char.ofNat 12

/-- Drop leading and trailing whitespace from a character list. -/
def stripChars (s : List Char) : List Char :=
  ((s.dropWhile pyIsSpace).reverse.dropWhile pyIsSpace).reverse

/-- Python str.strip(). -/
def pyStrip (s : String) : String := String.mk (stripChars s.data)

/-- Python str.lower() (ASCII, which covers every keyword and input here). -/
def pyLower (s : String) : String := String.mk (s.data.map Char.toLower)

/-- Whether the first list is a prefix of the second, as booleans. -/
def isPrefixList : List Char → List Char → Bool
  | [], _ => true
  | _ :: _, [] => false
  | a :: as, b :: bs => a == b && isPrefixList as bs

/-- Whether needle occurs as a contiguous run inside hay. -/
def hasSubstr : List Char → List Char → Bool
  | [], needle => needle.isEmpty
  | c :: t, needle => isPrefixList needle (c :: t) || hasSubstr t needle

/-- Python substring test: needle in hay. -/
def strIn (needle hay : String) : Bool := hasSubstr hay.data needle.data

/-- norm_text from the source: empty for None, else str(x).strip().lower(). -/
def norm_text (x : JVal) : String :=
  match x with
  | .null => ""
  | v => pyLower (pyStrip (pyStr v))

/-- SWE_CATEGORY_KEYWORDS from the source (a Python set, used only for
an any-match, so list order is immaterial). -/
def SWE_CATEGORY_KEYWORDS : List String :=
  ["software engineering", "software engineer", "software development", "swe",
   "backend", "back-end", "frontend", "front-end", "full stack", "full-stack",
   "fullstack", "platform", "engineering", "developer"]

/-- TITLE_KEYWORDS from the source. -/
def TITLE_KEYWORDS : List String :=
  ["software engineer", "software engineering", "swe", "backend", "back-end",
   "frontend", "front-end", "full stack", "full-stack", "fullstack",
   "platform", "developer", "development"]

/-- The prioritized category key names probed by role_category. -/
def categoryKeys : List String :=
  ["category", "role_category", "roleCategory", "type", "role_type",
   "discipline", "track"]

/-- Key probing loop of role_category: first key bound to a non-blank
string wins, returned stripped and lowercased. -/
def roleCategoryGo : List String → Role → String
  | [], _ => ""
  | k :: ks, role =>
    match pyGet role k with
    | .str s => if pyStrip s != "" then pyLower (pyStrip s) else roleCategoryGo ks role
    | _ => roleCategoryGo ks role

/-- role_category from the source. -/
def role_category (role : Role) : String := roleCategoryGo categoryKeys role

/-- is_swe from the source: category keyword match, then title keyword
fallback; the early-return loops are any-matches. -/
def is_swe (role : Role) : Bool :=
  let cat := role_category role
  let title := norm_text (pyGet role "title")
  SWE_CATEGORY_KEYWORDS.any (fun k => strIn k cat) ||
    TITLE_KEYWORDS.any (fun k => strIn k title)

/-- Outcome of the HTTP fetch plus JSON decode of the listings source:
a transport or HTTP-status failure, a body that is not valid JSON, or a
decoded JSON payload. -/
inductive FetchOutcome where
  | httpError
  | notJson
  | payload (v : JVal)

/-- fetch_listings from the source: raise_for_status on HTTP failure,
r.json() raising on a non-JSON body, and a RuntimeError when the decoded
payload is not a list.  A raised exception is an error result. -/
def fetch_listings : FetchOutcome → Except String (List JVal)
  | .httpError => .error "HTTP error fetching listings"
  | .notJson => .error "response body is not valid JSON"
  | .payload (.list xs) => .ok xs
  | .payload _ => .error "Unexpected listings.json format (expected a list)"

/-- Whether the fetch-and-parse step of a run raises. -/
def fetchFails (f : FetchOutcome) : Bool :=
  match fetch_listings f with
  | .error _ => true
  | .ok _ => false

/-- Observable content of the state file when load_state reads it: the
file is absent, its text fails json.loads, or it parses to a value. -/
inductive FileRead where
  | absent
  | unparseable
  | parsed (v : JVal)

/-- The state dict returned on every malformed-state path. -/
def emptyState : JVal := .obj [("seen_ids", .list [])]

/-- load_state from the source: an absent file, unparseable text, a
non-dict value, or a dict with a non-list seen_ids field all yield the
empty state; a well-formed dict is returned as is. -/
def load_state : FileRead → JVal
  | .absent => emptyState
  | .unparseable => emptyState
  | .parsed (.obj kvs) =>
    (match pyGet kvs "seen_ids" with
     | .list _ => JVal.obj kvs
     | _ => emptyState)
  | .parsed _ => emptyState

/-- save_state from the source: the file is overwritten with a dict whose
seen_ids field is the lexicographically sorted list of the given set
(json serialization is modelled structurally: the written value is what a
subsequent read parses back). -/
def save_state (seen_ids : Finset String) : FileRead :=
  .parsed (.obj [("seen_ids", .list ((seen_ids.sort (· ≤ ·)).map JVal.str))])

/-- Whether a read state file passes both shape checks of load_state. -/
def wellFormedState : FileRead → Bool
  | .parsed (.obj kvs) =>
    (match pyGet kvs "seen_ids" with
     | .list _ => true
     | _ => false)
  | _ => false

/-- The seen-identity set computed in main from a loaded state dict:
set(str(x) for x in state.get("seen_ids", []) if x). -/
def seen_ids_of (state : JVal) : Finset String :=
  match state with
  | .obj kvs =>
    (match pyGetD kvs "seen_ids" (JVal.list []) with
     | .list xs => ((xs.filter pyTruthy).map pyStr).toFinset
     | _ => ∅)
  | _ => ∅

/-- The role filter applied in the main loop: active, then is_visible,
then is_swe (non-dict entries are skipped before it in swe_listings). -/
def passes_filters (role : Role) : Bool :=
  pyTruthy (pyGetD role "active" (.bool false)) &&
    (pyTruthy (pyGetD role "is_visible" (.bool false)) && is_swe role)

/-- The swe_listings accumulated by the main loop. -/
def swe_listings (listings : List JVal) : List Role :=
  listings.filterMap fun v =>
    match v with
    | .obj kvs => if passes_filters kvs then some kvs else none
    | _ => none

/-- current_ids from main: set(str(role.get("id")) for role in
swe_listings if role.get("id")). -/
def current_ids (swe : List Role) : Finset String :=
  ((swe.filter fun r => pyTruthy (pyGet r "id")).map
    fun r => pyStr (pyGet r "id")).toFinset

/-- id_to_role lookup from main: a dict comprehension keyed by str(id),
where a later binding overwrites an earlier one. -/
def id_to_role (swe : List Role) (rid : String) : Option Role :=
  ((swe.filter fun r => pyTruthy (pyGet r "id")).reverse.find?
    fun r => pyStr (pyGet r "id") == rid)

/-- A message sent to the Telegram channel, as an observable event. -/
inductive Msg where
  | run
  | baselineCreated
  | summary (n : Nat)
  | detail (rid : String) (role : Role)
  | bareId (rid : String)
  | noNew

/-- The per-item notification loop of main: for each id (in the order
given) either the formatted role found in id_to_role or the bare-id
fallback message. -/
def notifyItems (swe : List Role) (rids : List String) : List Msg :=
  rids.map fun rid =>
    match id_to_role swe rid with
    | some role => Msg.detail rid role
    | none => Msg.bareId rid

/-- The identity a per-item message is about, if it is a per-item message. -/
def itemId : Msg → Option String
  | .detail rid _ => some rid
  | .bareId rid => some rid
  | _ => none

/-- The identities of the per-item messages of a run, in send order. -/
def sentItemIds (msgs : List Msg) : List String := msgs.filterMap itemId

/-- The identity strings recorded in a persisted state file, as a set. -/
def persistedIds : FileRead → Finset String
  | .parsed (.obj kvs) =>
    (match pyGet kvs "seen_ids" with
     | .list xs =>
       (xs.filterMap fun v =>
         match v with
         | JVal.str s => some s
         | _ => none).toFinset
     | _ => ∅)
  | _ => ∅

/-- Observable result of one invocation of main: the messages sent, the
state file after the run, and the raised exception if any. -/
structure RunOutcome where
  msgs : List Msg
  fileAfter : FileRead
  err : Option String

/-- main from the source, as a pure function of the state file and the
fetch outcome.  A raised fetch/parse exception aborts the run after the
initial run message, leaving the file untouched; otherwise the baseline,
no-new, or new-listings branch runs and the file is overwritten with the
current identity set. -/
def main (file : FileRead) (fetch : FetchOutcome) : RunOutcome :=
  match fetch_listings fetch with
  | .error e => ⟨[Msg.run], file, some e⟩
  | .ok listings =>
    let state := load_state file
    let seen_ids := seen_ids_of state
    let swe := swe_listings listings
    let current := current_ids swe
    if seen_ids = ∅ then
      ⟨[Msg.run, Msg.baselineCreated], save_state current, none⟩
    else
      let new_ids := current \ seen_ids
      if new_ids = ∅ then
        ⟨[Msg.run, Msg.noNew], save_state current, none⟩
      else
        ⟨[Msg.run, Msg.summary new_ids.card] ++
            notifyItems swe ((new_ids.sort (· ≤ ·)).take 10),
          save_state current, none⟩

/-- Modelled from the spec: the source classifier defines no exclude
keyword set anywhere; section 8 of the spec names "data" as an exclude
keyword of the classification rule, so the spec-side exclude set is
rendered here only so the exclude-precedence claim can be stated against
the source classifier. -/
def spec_excludeKeywords : List String := ["data"]

/-- Sample listing: spec scenario role with id 1. -/
def role1 : Role :=
  [("id", JVal.str "1"), ("title", JVal.str "Software Engineer Intern"),
   ("category", JVal.str "Software Engineering"),
   ("active", JVal.bool true), ("is_visible", JVal.bool true)]

/-- Sample listing: spec scenario role with id 2. -/
def role2 : Role :=
  [("id", JVal.str "2"), ("title", JVal.str "Backend Intern"),
   ("category", JVal.str "Engineering"),
   ("active", JVal.bool true), ("is_visible", JVal.bool true)]

/-- Sample listing: an active, visible SWE role carrying no id field. -/
def roleNoId : Role :=
  [("title", JVal.str "Software Engineer Intern"),
   ("company_name", JVal.str "Acme"),
   ("locations", JVal.list [JVal.str "NYC, New York"]),
   ("active", JVal.bool true), ("is_visible", JVal.bool true)]

/-- Sample listing: a title matching both an include keyword of the
source and the exclude keyword named by the spec. -/
def roleDataPlatform : Role :=
  [("title", JVal.str "Data Platform Intern"),
   ("active", JVal.bool true), ("is_visible", JVal.bool true)]

/-- Sample state file recording the single seen identity 1. -/
def stateSeen1 : FileRead :=
  .parsed (JVal.obj [("seen_ids", JVal.list [JVal.str "1"])])

/-- Reading back a just-saved state file parses to the saved dict. -/
theorem load_save (s : Finset String) :
    load_state (save_state s) =
      JVal.obj [("seen_ids", JVal.list ((s.sort (· ≤ ·)).map JVal.str))] := rfl

/-- The identity set recorded by save_state is exactly the saved set. -/
theorem persistedIds_save (s : Finset String) : persistedIds (save_state s) = s := by
  show ((((s.sort (· ≤ ·)).map JVal.str).filterMap fun v =>
    match v with
    | JVal.str s => some s
    | _ => none).toFinset = s)
  rw [List.filterMap_map]
  have : ((fun v =>
      match v with
      | JVal.str s => some s
      | _ => none) ∘ JVal.str) = (some : String → Option String) := rfl
  rw [this, List.filterMap_some, Finset.sort_toFinset]

/-- The seen set a later run computes from a saved file never exceeds
the saved set (the set comprehension drops falsy entries). -/
theorem seen_ids_of_load_save_subset (s : Finset String) :
    seen_ids_of (load_state (save_state s)) ⊆ s := by
  intro x hx
  have hx2 : x ∈ ((((s.sort (· ≤ ·)).map JVal.str).filter pyTruthy).map pyStr).toFinset := hx
  rw [List.mem_toFinset] at hx2
  rcases List.mem_map.mp hx2 with ⟨v, hv, hvx⟩
  rcases List.mem_map.mp (List.mem_of_mem_filter hv) with ⟨y, hy, rfl⟩
  have hpy : pyStr (JVal.str y) = y := rfl
  rw [hpy] at hvx
  subst hvx
  exact (Finset.mem_sort (α := String) (· ≤ ·)).mp hy

/-- The per-item loop reports exactly the identities it is given. -/
theorem sentItemIds_notifyItems (swe : List Role) (rids : List String) :
    sentItemIds (notifyItems swe rids) = rids := by
  induction rids with
  | nil => rfl
  | cons r rs ih =>
    simp only [notifyItems, List.map_cons, sentItemIds, List.filterMap_cons] at *
    cases h : id_to_role swe r <;> simp [itemId, ih]

/-- Prepending non-item messages does not change the reported item ids. -/
theorem sentItemIds_append_items (swe : List Role) (rids : List String) (n : Nat) :
    sentItemIds ([Msg.run, Msg.summary n] ++ notifyItems swe rids) = rids := by
  have h := sentItemIds_notifyItems swe rids
  simp only [sentItemIds, List.filterMap_append, List.filterMap_cons, itemId,
    List.filterMap_nil, List.nil_append] at *
  exact h

/-- Every identity in current_ids has a binding in the id_to_role map. -/
theorem id_to_role_isSome (swe : List Role) (rid : String)
    (h : rid ∈ current_ids swe) : (id_to_role swe rid).isSome = true := by
  simp only [current_ids, List.mem_toFinset, List.mem_map] at h
  rcases h with ⟨r, hr, hrid⟩
  simp only [id_to_role, List.find?_isSome]
  exact ⟨r, List.mem_reverse.mpr hr, by rw [hrid]; exact beq_self_eq_true rid⟩

/-- A bare-id fallback message can only arise from an identity with no
binding in the id_to_role map. -/
theorem bareId_mem_notifyItems (swe : List Role) (rids : List String) (rid : String)
    (h : Msg.bareId rid ∈ notifyItems swe rids) :
    rid ∈ rids ∧ id_to_role swe rid = none := by
  simp only [notifyItems, List.mem_map] at h
  rcases h with ⟨r, hr, hm⟩
  cases hfind : id_to_role swe r with
  | some role => rw [hfind] at hm; cases hm
  | none =>
    rw [hfind] at hm
    cases hm
    exact ⟨hr, hfind⟩

/-- A raised fetch or parse exception stops main right after the run
message. -/
theorem main_error (file : FileRead) (fetch : FetchOutcome) (e : String)
    (h : fetch_listings fetch = .error e) :
    main file fetch = ⟨[Msg.run], file, some e⟩ := by
  simp [main, h]

/-- Shape of main on the baseline branch. -/
theorem main_ok_baseline (file : FileRead) (xs : List JVal)
    (h : seen_ids_of (load_state file) = ∅) :
    main file (.payload (.list xs)) =
      ⟨[Msg.run, Msg.baselineCreated],
        save_state (current_ids (swe_listings xs)), none⟩ := by
  simp [main, fetch_listings, h]

/-- Shape of main on the nothing-new branch. -/
theorem main_ok_noNew (file : FileRead) (xs : List JVal)
    (h1 : seen_ids_of (load_state file) ≠ ∅)
    (h2 : current_ids (swe_listings xs) \ seen_ids_of (load_state file) = ∅) :
    main file (.payload (.list xs)) =
      ⟨[Msg.run, Msg.noNew], save_state (current_ids (swe_listings xs)), none⟩ := by
  simp [main, fetch_listings, h1, h2]

/-- Shape of main on the new-listings branch. -/
theorem main_ok_active (file : FileRead) (xs : List JVal)
    (h1 : seen_ids_of (load_state file) ≠ ∅)
    (h2 : current_ids (swe_listings xs) \ seen_ids_of (load_state file) ≠ ∅) :
    main file (.payload (.list xs)) =
      ⟨[Msg.run,
          Msg.summary (current_ids (swe_listings xs) \ seen_ids_of (load_state file)).card] ++
          notifyItems (swe_listings xs)
            (((current_ids (swe_listings xs) \ seen_ids_of (load_state file)).sort (· ≤ ·)).take 10),
        save_state (current_ids (swe_listings xs)), none⟩ := by
  simp [main, fetch_listings, h1, h2]

/-- Claim C1, counterexample: a record whose title contains both the
exclude keyword named by the spec ("data") and an include keyword of the
source rule ("platform") is classified relevant by is_swe, so an exclude
match does not take precedence: the source classifier has no exclude
keywords at all. -/
theorem exclude_precedence_counterexample :
    ("data" ∈ spec_excludeKeywords ∧
      strIn "data" (norm_text (pyGet roleDataPlatform "title")) = true ∧
      "platform" ∈ TITLE_KEYWORDS ∧
      strIn "platform" (norm_text (pyGet roleDataPlatform "title")) = true) ∧
    is_swe roleDataPlatform = true := by decide

/-- Claim C1, amended: the classifier has no exclude tier; any include
keyword occurring in the lowercased category or title makes is_swe
return relevant, whatever else the text contains. -/
theorem include_match_suffices (role : Role) (k : String)
    (h : (k ∈ SWE_CATEGORY_KEYWORDS ∧ strIn k (role_category role) = true) ∨
      (k ∈ TITLE_KEYWORDS ∧ strIn k (norm_text (pyGet role "title")) = true)) :
    is_swe role = true := by
  simp only [is_swe, Bool.or_eq_true, List.any_eq_true]
  rcases h with ⟨hk, hs⟩ | ⟨hk, hs⟩
  · exact Or.inl ⟨k, hk, hs⟩
  · exact Or.inr ⟨k, hk, hs⟩

/-- Claim C1, witness for the amended theorem at the Data Platform
record. -/
theorem include_match_suffices_witness :
    ("platform" ∈ TITLE_KEYWORDS ∧
      strIn "platform" (norm_text (pyGet roleDataPlatform "title")) = true) ∧
    is_swe roleDataPlatform = true :=
  ⟨⟨by decide, by decide⟩,
    include_match_suffices roleDataPlatform "platform" (Or.inr ⟨by decide, by decide⟩)⟩

/-- Claim C2: on a baseline run (empty or absent seen set) main sends
only the run and baseline messages, so zero per-item notifications
whatever the current listings are, and the persisted state becomes
exactly the identity set computed in this run. -/
theorem baseline_run_reports_nothing (file : FileRead) (xs : List JVal)
    (h : seen_ids_of (load_state file) = ∅) :
    (main file (.payload (.list xs))).msgs = [Msg.run, Msg.baselineCreated] ∧
    sentItemIds ((main file (.payload (.list xs))).msgs) = [] ∧
    (main file (.payload (.list xs))).fileAfter =
      save_state (current_ids (swe_listings xs)) ∧
    persistedIds ((main file (.payload (.list xs))).fileAfter) =
      current_ids (swe_listings xs) := by
  rw [main_ok_baseline file xs h]
  exact ⟨rfl, rfl, rfl, persistedIds_save _⟩

/-- Claim C2, witness: a first run against an absent state file with one
relevant listing. -/
theorem baseline_run_reports_nothing_witness :
    seen_ids_of (load_state FileRead.absent) = ∅ ∧
    ((main FileRead.absent (.payload (.list [JVal.obj role1]))).msgs =
        [Msg.run, Msg.baselineCreated] ∧
      sentItemIds ((main FileRead.absent (.payload (.list [JVal.obj role1]))).msgs) = [] ∧
      (main FileRead.absent (.payload (.list [JVal.obj role1]))).fileAfter =
        save_state (current_ids (swe_listings [JVal.obj role1])) ∧
      persistedIds ((main FileRead.absent (.payload (.list [JVal.obj role1]))).fileAfter) =
        current_ids (swe_listings [JVal.obj role1])) :=
  ⟨by decide, baseline_run_reports_nothing FileRead.absent [JVal.obj role1] (by decide)⟩

/-- Claim C3: every successful run overwrites the persisted state with
exactly the identity set of the run (a snapshot, never a union with the
prior state); consequently an identity absent from the saved run and
present again in a later run is in the new set of that later run. -/
theorem run_replaces_state (file : FileRead) (xs ys : List JVal) (i : String) :
    (main file (.payload (.list xs))).err = none ∧
    (main file (.payload (.list xs))).fileAfter =
      save_state (current_ids (swe_listings xs)) ∧
    persistedIds ((main file (.payload (.list xs))).fileAfter) =
      current_ids (swe_listings xs) ∧
    (i ∉ current_ids (swe_listings xs) → i ∈ current_ids (swe_listings ys) →
      i ∈ current_ids (swe_listings ys) \
        seen_ids_of (load_state ((main file (.payload (.list xs))).fileAfter))) := by
  have hfile : (main file (.payload (.list xs))).fileAfter =
      save_state (current_ids (swe_listings xs)) ∧
      (main file (.payload (.list xs))).err = none := by
    by_cases h1 : seen_ids_of (load_state file) = ∅
    · rw [main_ok_baseline file xs h1]; exact ⟨rfl, rfl⟩
    · by_cases h2 :
        current_ids (swe_listings xs) \ seen_ids_of (load_state file) = ∅
      · rw [main_ok_noNew file xs h1 h2]; exact ⟨rfl, rfl⟩
      · rw [main_ok_active file xs h1 h2]; exact ⟨rfl, rfl⟩
  refine ⟨hfile.2, hfile.1, ?_, ?_⟩
  · rw [hfile.1]; exact persistedIds_save _
  · intro hnotx hiny
    rw [hfile.1, Finset.mem_sdiff]
    exact ⟨hiny, fun hmem => hnotx (seen_ids_of_load_save_subset _ hmem)⟩

/-- Claim C3, witness: id 2 leaves the tracked set when a run saves only
id 1, and is in the new set again once it reappears. -/
theorem run_replaces_state_witness :
    (main stateSeen1 (.payload (.list [JVal.obj role1]))).err = none ∧
    (main stateSeen1 (.payload (.list [JVal.obj role1]))).fileAfter =
      save_state (current_ids (swe_listings [JVal.obj role1])) ∧
    persistedIds ((main stateSeen1 (.payload (.list [JVal.obj role1]))).fileAfter) =
      current_ids (swe_listings [JVal.obj role1]) ∧
    "2" ∈ current_ids (swe_listings [JVal.obj role1, JVal.obj role2]) \
      seen_ids_of
        (load_state ((main stateSeen1 (.payload (.list [JVal.obj role1]))).fileAfter)) := by
  have h := run_replaces_state stateSeen1 [JVal.obj role1]
    [JVal.obj role1, JVal.obj role2] "2"
  exact ⟨h.1, h.2.1, h.2.2.1, h.2.2.2 (by decide) (by decide)⟩

/-- Claim C4: when the fetch or parse step raises, the run aborts right
after the run message, the raised error surfaces, and the state file is
left exactly as it was. -/
theorem failed_fetch_leaves_state (file : FileRead) (fetch : FetchOutcome)
    (h : fetchFails fetch = true) :
    (main file fetch).fileAfter = file ∧
    (main file fetch).err.isSome = true ∧
    (main file fetch).msgs = [Msg.run] := by
  cases hf : fetch_listings fetch with
  | error e => rw [main_error file fetch e hf]; exact ⟨rfl, rfl, rfl⟩
  | ok xs => simp [fetchFails, hf] at h

/-- Claim C4, witness: an HTTP failure leaves the seen-1 state file
untouched. -/
theorem failed_fetch_leaves_state_witness :
    fetchFails FetchOutcome.httpError = true ∧
    ((main stateSeen1 FetchOutcome.httpError).fileAfter = stateSeen1 ∧
      (main stateSeen1 FetchOutcome.httpError).err.isSome = true ∧
      (main stateSeen1 FetchOutcome.httpError).msgs = [Msg.run]) :=
  ⟨by decide, failed_fetch_leaves_state stateSeen1 FetchOutcome.httpError (by decide)⟩

/-- Claim C5: in an active run with a non-empty new set, the per-item
notifications are exactly the first ten identities of the
lexicographically sorted new set, hence at most ten of them, the
smallest ones, emitted in ascending order. -/
theorem detail_cap_and_sort (file : FileRead) (xs : List JVal)
    (h1 : seen_ids_of (load_state file) ≠ ∅)
    (h2 : current_ids (swe_listings xs) \ seen_ids_of (load_state file) ≠ ∅) :
    sentItemIds ((main file (.payload (.list xs))).msgs) =
      ((current_ids (swe_listings xs) \
          seen_ids_of (load_state file)).sort (· ≤ ·)).take 10 ∧
    (sentItemIds ((main file (.payload (.list xs))).msgs)).length ≤ 10 ∧
    List.Sorted (· ≤ ·) (sentItemIds ((main file (.payload (.list xs))).msgs)) := by
  rw [main_ok_active file xs h1 h2]
  have hs := sentItemIds_append_items (swe_listings xs)
    (((current_ids (swe_listings xs) \
        seen_ids_of (load_state file)).sort (· ≤ ·)).take 10)
    (current_ids (swe_listings xs) \ seen_ids_of (load_state file)).card
  refine ⟨hs, ?_, ?_⟩
  · rw [hs]; exact List.length_take_le 10 _
  · rw [hs]
    exact List.Pairwise.sublist (List.take_sublist 10 _)
      (Finset.sort_sorted (· ≤ ·) _)

/-- Claim C5, witness: with seen id 1 and current ids 1 and 2, exactly
the single new id 2 is notified in detail. -/
theorem detail_cap_and_sort_witness :
    sentItemIds
        ((main stateSeen1 (.payload (.list [JVal.obj role1, JVal.obj role2]))).msgs) =
      ((current_ids (swe_listings [JVal.obj role1, JVal.obj role2]) \
          seen_ids_of (load_state stateSeen1)).sort (· ≤ ·)).take 10 ∧
    (sentItemIds
        ((main stateSeen1 (.payload (.list [JVal.obj role1, JVal.obj role2]))).msgs)).length ≤ 10 ∧
    List.Sorted (· ≤ ·)
      (sentItemIds
        ((main stateSeen1 (.payload (.list [JVal.obj role1, JVal.obj role2]))).msgs)) :=
  detail_cap_and_sort stateSeen1 [JVal.obj role1, JVal.obj role2]
    (by decide) (by decide)

/-- Claim C6, counterexample: an active, visible, relevant record with
title, company and location text but no id field receives no identity at
all: the identity set of a run whose only listing is that record is
empty, instead of an identity derived from its textual fields. -/
theorem missing_id_counterexample :
    pyTruthy (pyGet roleNoId "id") = false ∧
    passes_filters roleNoId = true ∧
    swe_listings [JVal.obj roleNoId] = [roleNoId] ∧
    current_ids (swe_listings [JVal.obj roleNoId]) = ∅ :=
  ⟨by decide, by decide, rfl, by decide⟩

/-- Claim C6, amended: the source derives no fallback identity from
textual fields; a record whose id field is missing or falsy contributes
nothing to the identity set, and every identity in the set is the string
form of a truthy id of some filtered record. -/
theorem no_fallback_identity (r : Role) (rest : List JVal)
    (hid : pyTruthy (pyGet r "id") = false) :
    current_ids (swe_listings (JVal.obj r :: rest)) =
      current_ids (swe_listings rest) ∧
    ∀ rid ∈ current_ids (swe_listings rest),
      ∃ role, role ∈ swe_listings rest ∧ pyTruthy (pyGet role "id") = true ∧
        rid = pyStr (pyGet role "id") := by
  constructor
  · by_cases hp : passes_filters r
    · have hswe : swe_listings (JVal.obj r :: rest) = r :: swe_listings rest := by
        simp [swe_listings, List.filterMap_cons, hp]
      rw [hswe]
      simp [current_ids, List.filter_cons, hid]
    · have hswe : swe_listings (JVal.obj r :: rest) = swe_listings rest := by
        simp [swe_listings, List.filterMap_cons, hp]
      rw [hswe]
  · intro rid hrid
    simp only [current_ids, List.mem_toFinset, List.mem_map, List.mem_filter] at hrid
    rcases hrid with ⟨role, ⟨hmem, htr⟩, heq⟩
    exact ⟨role, hmem, htr, heq.symm⟩

/-- Claim C6, witness: dropping the id-less record changes nothing, and
the only identity present is the string of the id of the other record. -/
theorem no_fallback_identity_witness :
    current_ids (swe_listings (JVal.obj roleNoId :: [JVal.obj role1])) =
      current_ids (swe_listings [JVal.obj role1]) ∧
    (∃ role, role ∈ swe_listings [JVal.obj role1] ∧
      pyTruthy (pyGet role "id") = true ∧ "1" = pyStr (pyGet role "id")) := by
  have h := no_fallback_identity roleNoId [JVal.obj role1] (by decide)
  exact ⟨h.1, h.2 "1" (by decide)⟩

/-- Claim C7: load_state yields the empty-seen state, without any error,
on every malformed input: an absent file, text that fails json parsing,
a parsed value that is not an object, or an object whose seen_ids field
is not a list; the seen set computed from it is then empty. -/
theorem malformed_state_loads_empty (file : FileRead)
    (h : wellFormedState file = false) :
    load_state file = emptyState ∧ seen_ids_of (load_state file) = ∅ := by
  have hempty : seen_ids_of emptyState = ∅ := by decide
  have hload : load_state file = emptyState := by
    cases file with
    | absent => rfl
    | unparseable => rfl
    | parsed v =>
      cases v with
      | null => rfl
      | bool b => rfl
      | num n => rfl
      | str s => rfl
      | list xs => rfl
      | obj kvs =>
        simp only [load_state]
        cases hg : pyGet kvs "seen_ids" with
        | null => rfl
        | bool b => rfl
        | num n => rfl
        | str s => rfl
        | obj kvs2 => rfl
        | list xs =>
          exfalso
          simp only [wellFormedState, hg] at h
          exact Bool.noConfusion h
  exact ⟨hload, by rw [hload]; exact hempty⟩

/-- Claim C7, witness: a state file holding a bare json string loads as
the empty state. -/
theorem malformed_state_loads_empty_witness :
    wellFormedState (FileRead.parsed (JVal.str "oops")) = false ∧
    (load_state (FileRead.parsed (JVal.str "oops")) = emptyState ∧
      seen_ids_of (load_state (FileRead.parsed (JVal.str "oops"))) = ∅) :=
  ⟨by decide, malformed_state_loads_empty (FileRead.parsed (JVal.str "oops")) (by decide)⟩

/-- Claim C8, counterexample: a semi-structured text document without
the tracked heading does not produce an empty record sequence: the parse
step raises (already at json decoding, or at the list check when the
body happens to be a json string) and the run aborts. -/
theorem text_source_counterexample :
    fetch_listings FetchOutcome.notJson =
      Except.error "response body is not valid JSON" ∧
    fetch_listings (.payload (JVal.str "## Other Section, no tracked heading")) =
      Except.error "Unexpected listings.json format (expected a list)" ∧
    (main FileRead.absent
        (.payload (JVal.str "## Other Section, no tracked heading"))).err.isSome = true ∧
    (main FileRead.absent
        (.payload (JVal.str "## Other Section, no tracked heading"))).fileAfter =
      FileRead.absent :=
  ⟨rfl, rfl, rfl, rfl⟩

/-- Claim C8, amended: the source has no text extractor at all; any text
document as decoded payload fails the expected-a-list check, so the run
aborts with the state file untouched instead of returning an empty
record sequence. -/
theorem text_source_aborts (file : FileRead) (s : String) :
    fetchFails (.payload (JVal.str s)) = true ∧
    (main file (.payload (JVal.str s))).msgs = [Msg.run] ∧
    (main file (.payload (JVal.str s))).fileAfter = file ∧
    (main file (.payload (JVal.str s))).err.isSome = true := by
  have he : fetch_listings (.payload (JVal.str s)) =
      .error "Unexpected listings.json format (expected a list)" := rfl
  rw [main_error file _ _ he]
  exact ⟨rfl, rfl, rfl, rfl⟩

/-- Claim C9: state-store round trip: loading right after saving a set s
parses back the saved dict, whose seen_ids list is the lexicographically
sorted enumeration of s; viewed as a set of strings it is exactly s. -/
theorem state_roundtrip_sorted (s : Finset String) :
    load_state (save_state s) =
      JVal.obj [("seen_ids", JVal.list ((s.sort (· ≤ ·)).map JVal.str))] ∧
    persistedIds (save_state s) = s ∧
    List.Sorted (· ≤ ·) (s.sort (· ≤ ·)) :=
  ⟨load_save s, persistedIds_save s, Finset.sort_sorted (· ≤ ·) s⟩

/-- Claim C10: every identity in the computed new set has a binding in
the id_to_role map built from the same filtered listings, and no run
ever sends the bare-id fallback message. -/
theorem new_ids_have_details (file : FileRead) (xs : List JVal) (rid : String) :
    (rid ∈ current_ids (swe_listings xs) →
      (id_to_role (swe_listings xs) rid).isSome = true) ∧
    Msg.bareId rid ∉ (main file (.payload (.list xs))).msgs := by
  refine ⟨id_to_role_isSome (swe_listings xs) rid, ?_⟩
  intro hmem
  by_cases h1 : seen_ids_of (load_state file) = ∅
  · rw [main_ok_baseline file xs h1] at hmem
    simp at hmem
  · by_cases h2 : current_ids (swe_listings xs) \ seen_ids_of (load_state file) = ∅
    · rw [main_ok_noNew file xs h1 h2] at hmem
      simp at hmem
    · rw [main_ok_active file xs h1 h2] at hmem
      rcases List.mem_append.mp hmem with hmem2 | hmem2
      · simp at hmem2
      · rcases bareId_mem_notifyItems _ _ _ hmem2 with ⟨hin, hnone⟩
        have hsort := List.mem_of_mem_take hin
        have hnew := (Finset.mem_sort (α := String) (· ≤ ·)).mp hsort
        have hcur : rid ∈ current_ids (swe_listings xs) :=
          (Finset.mem_sdiff.mp hnew).1
        have hsome := id_to_role_isSome (swe_listings xs) rid hcur
        rw [hnone] at hsome
        cases hsome

/-- Claim C10, witness: the new id 2 has its role in the map and no
bare-id message is sent for it. -/
theorem new_ids_have_details_witness :
    (id_to_role (swe_listings [JVal.obj role1, JVal.obj role2]) "2").isSome = true ∧
    Msg.bareId "2" ∉
      (main stateSeen1 (.payload (.list [JVal.obj role1, JVal.obj role2]))).msgs :=
  ⟨(new_ids_have_details stateSeen1 [JVal.obj role1, JVal.obj role2] "2").1 (by decide),
    (new_ids_have_details stateSeen1 [JVal.obj role1, JVal.obj role2] "2").2⟩

end Notifier
